import Mathlib

/-!
Verification of the microfluidic geometry-construction and
boundary-classification subsystem (base abstraction, T-junction generator,
symmetric-width Y-junction generator, unit-scaled export).

The definitions below are a shallow embedding of the Python sources:
  - `scripts/geometry/base_geometry.py`   (BoundaryType, BoundarySegment,
    MicrochannelGeometry: add_boundary, get_boundaries_by_type,
    validate_boundaries, _calculate_length, export_for_comsol, unit scale)
  - `scripts/geometry/tjunction.py`       (TJunctionGeometry)
  - `scripts/geometry/yjunction_corrected.py` (YJunctionCorrected)
  - `scripts/geometry/yjunction_microfluidic.py` (YJunctionMicrofluidic,
    constructor only)

Machine floats are modelled exactly: the coordinate type is a field `K`
(instantiated at `ℚ` for decidable concrete evaluation where the source uses
only field operations, and at `ℝ` where the source computes `cos`, `sin`,
`sqrt`, `radians`); `np.radians x` is `x * π / 180`.  Python instance state
(`self.boundaries`, mutated by `add_boundary`) is modelled by explicit state
passing: `generate` takes the geometry record and returns the updated record
together with the outer polygon it builds.
-/

namespace MicroGeo

/-- Embeds `BoundaryType` of `base_geometry.py`. -/
inductive BoundaryType where
  | inlet
  | outlet1
  | outlet2
  | wall
deriving DecidableEq, Repr

/-- Embeds `BoundarySegment` of `base_geometry.py`: an ordered point list,
a boundary type and a free-text label. -/
structure BoundarySegment (K : Type) where
  points : List (K × K)
  boundary_type : BoundaryType
  label : String
deriving DecidableEq

variable {K : Type}

/-- Embeds `MicrochannelGeometry.add_boundary`: appends one segment. -/
def add_boundary (bs : List (BoundarySegment K)) (points : List (K × K))
    (boundary_type : BoundaryType) (label : String) : List (BoundarySegment K) :=
  bs ++ [⟨points, boundary_type, label⟩]

/-- Embeds `MicrochannelGeometry.get_boundaries_by_type`. -/
def get_boundaries_by_type (bs : List (BoundarySegment K)) (t : BoundaryType) :
    List (BoundarySegment K) :=
  bs.filter (fun b => b.boundary_type = t)

/-- Embeds `MicrochannelGeometry.validate_boundaries`: builds the error list
(exactly one inlet; at least one outlet; at least one wall) and returns
`(errors == [], errors)`. -/
def validate_boundaries (bs : List (BoundarySegment K)) : Bool × List String :=
  let inlets := get_boundaries_by_type bs BoundaryType.inlet
  let e1 : List String :=
    if inlets.length ≠ 1 then
      ["入口边界数量错误: 应为1个，实际" ++ toString inlets.length ++ "个"]
    else []
  let outlets := get_boundaries_by_type bs BoundaryType.outlet1 ++
                 get_boundaries_by_type bs BoundaryType.outlet2
  let e2 : List String :=
    if outlets.length < 1 then
      ["出口边界数量不足: 至少需要1个，实际" ++ toString outlets.length ++ "个"]
    else []
  let walls := get_boundaries_by_type bs BoundaryType.wall
  let e3 : List String := if walls.length = 0 then ["缺少壁面边界定义"] else []
  let errors := e1 ++ e2 ++ e3
  (errors.length == 0, errors)

/-- Embeds `MicrochannelGeometry._calculate_length`: 0 for fewer than two
points, otherwise the sum of Euclidean distances between consecutive points. -/
noncomputable def calculate_length : List (ℝ × ℝ) → ℝ
  | [] => 0
  | [_] => 0
  | p :: q :: rest =>
      Real.sqrt ((q.1 - p.1) ^ 2 + (q.2 - p.2) ^ 2) + calculate_length (q :: rest)

/-- Embeds the unit-scale assignment of `MicrochannelGeometry.__init__`:
`0.001 if units == 'mm' else 1.0`. -/
def unit_scale (K : Type) [DivisionRing K] (units : String) : K :=
  if units = "mm" then 0.001 else 1.0

/-- One coordinate pair rescaled by the unit scale, as in
`MicrochannelGeometry.export_for_comsol` (`points * self.unit_scale`). -/
def scale_point [Mul K] (s : K) (p : K × K) : K × K :=
  (p.1 * s, p.2 * s)

/-- Dividing an exported coordinate pair back by the scale factor
(the spec's round-trip check). -/
def unscale_point [Div K] (s : K) (p : K × K) : K × K :=
  (p.1 / s, p.2 / s)

end MicroGeo

namespace MicroGeo

/-- Embeds the instance state of `TJunctionGeometry` (`tjunction.py`):
constructor-computed parameters plus the accumulated boundary list. -/
structure TJunctionGeometry (K : Type) where
  units : String
  W : K
  L_main : K
  L_branch : K
  junction_x : K
  half_W : K
  boundaries : List (BoundarySegment K)

variable {K : Type} [Field K]

/-- Embeds `TJunctionGeometry.__init__`: `junction_x` defaults to
`L_main / 2` when not given, `half_W = W / 2`, boundary list starts empty. -/
def TJunctionGeometry.init (L_main L_branch W : K) (junction_x : Option K)
    (units : String) : TJunctionGeometry K :=
  { units := units
    W := W
    L_main := L_main
    L_branch := L_branch
    junction_x := junction_x.getD (L_main / 2)
    half_W := W / 2
    boundaries := [] }

/-- Embeds `TJunctionGeometry.generate`: appends the nine boundary segments
(in source order: INLET, OUTLET1, OUTLET2, then six walls) to the existing
boundary list — the source never resets `self.boundaries` — and returns the
ten-vertex outer polygon `p1..p10`. -/
def TJunctionGeometry.generate (g : TJunctionGeometry K) :
    TJunctionGeometry K × List (K × K) :=
  let hw := g.half_W
  let Lm := g.L_main
  let Lb := g.L_branch
  let jx := g.junction_x
  let p1 : K × K := (0, -hw)
  let p2 : K × K := (Lm, -hw)
  let p3 : K × K := (Lm, hw)
  let p4 : K × K := (jx + hw, hw)
  let p5 : K × K := (jx + hw, 0)
  let p6 : K × K := (jx + hw, Lb)
  let p7 : K × K := (jx - hw, Lb)
  let p8 : K × K := (jx - hw, 0)
  let p9 : K × K := (jx - hw, -hw)
  let p10 : K × K := (0, -hw)
  let outer_boundary := [p1, p2, p3, p4, p5, p6, p7, p8, p9, p10]
  let bs := g.boundaries
  let bs := add_boundary bs [(0, -hw), (0, hw)] BoundaryType.inlet "INLET"
  let bs := add_boundary bs [(Lm, -hw), (Lm, hw)] BoundaryType.outlet1 "OUTLET1"
  let bs := add_boundary bs [(jx - hw, Lb), (jx + hw, Lb)] BoundaryType.outlet2 "OUTLET2"
  let bs := add_boundary bs [(0, -hw), (Lm, -hw)] BoundaryType.wall "WALL-bottom"
  let bs := add_boundary bs [(0, hw), (jx - hw, hw)] BoundaryType.wall "WALL-top-left"
  let bs := add_boundary bs [(jx - hw, hw), (jx - hw, Lb)] BoundaryType.wall "WALL-branch-left"
  let bs := add_boundary bs [(jx - hw, Lb), (jx + hw, Lb)] BoundaryType.wall "WALL-branch-top"
  let bs := add_boundary bs [(jx + hw, Lb), (jx + hw, hw)] BoundaryType.wall "WALL-branch-right"
  let bs := add_boundary bs [(jx + hw, hw), (Lm, hw)] BoundaryType.wall "WALL-top-right"
  ({ g with boundaries := bs }, outer_boundary)

/-- Embeds `MicrochannelGeometry.export_for_comsol` as inherited by the
T-junction: calls `generate`, then rescales every polygon coordinate and
every boundary coordinate by the unit scale. -/
def TJunctionGeometry.export_for_comsol (g : TJunctionGeometry K) :
    List (List (K × K)) × List (BoundarySegment K) :=
  let r := g.generate
  let sc := unit_scale K g.units
  ([r.2.map (scale_point sc)],
   r.1.boundaries.map (fun b => { b with points := b.points.map (scale_point sc) }))

/-- Embeds the instance state of `YJunctionCorrected`
(`yjunction_corrected.py`). -/
structure YJunctionCorrected where
  units : String
  W_main : ℝ
  half_W_main : ℝ
  W_branch : ℝ
  half_W_branch : ℝ
  L_main : ℝ
  L_branch : ℝ
  branch_angle : ℝ
  angle_rad : ℝ
  boundaries : List (BoundarySegment ℝ)

/-- Embeds `YJunctionCorrected.__init__`: `W_branch = W_main / 2`,
`half_W_branch = W_branch / 2`, `angle_rad = radians(branch_angle)`. -/
noncomputable def YJunctionCorrected.init (L_main L_branch W_main branch_angle : ℝ)
    (units : String) : YJunctionCorrected :=
  { units := units
    W_main := W_main
    half_W_main := W_main / 2
    W_branch := W_main / 2
    half_W_branch := (W_main / 2) / 2
    L_main := L_main
    L_branch := L_branch
    branch_angle := branch_angle
    angle_rad := branch_angle * (Real.pi / 180)
    boundaries := [] }

/-- Embeds `YJunctionCorrected.generate`: direction vectors
`(cos θ, ±sin θ)`, outward normals `(−sin θ, ±cos θ)`, the nine vertices
`v1, v9, v8, v7, v6, v5, v3, v4, v2`, the nine boundary segments in
traversal order 1→9→8→7→6→5→3→4→2→1 appended to the existing boundary list
(the source never resets `self.boundaries`), and the nine-vertex polygon. -/
noncomputable def YJunctionCorrected.generate (g : YJunctionCorrected) :
    YJunctionCorrected × List (ℝ × ℝ) :=
  let hwm := g.half_W_main
  let hwb := g.half_W_branch
  let Lm := g.L_main
  let Lb := g.L_branch
  let theta := g.angle_rad
  let c := Real.cos theta
  let s := Real.sin theta
  let v1 : ℝ × ℝ := (0, -hwm)
  let v9 : ℝ × ℝ := (0, hwm)
  let v8 : ℝ × ℝ := (Lm, hwm)
  let upper_end_center : ℝ × ℝ := (Lm + Lb * c, 0 + Lb * s)
  let v7 : ℝ × ℝ := (upper_end_center.1 + hwb * (-s), upper_end_center.2 + hwb * c)
  let v6 : ℝ × ℝ := (upper_end_center.1 - hwb * (-s), upper_end_center.2 - hwb * c)
  let v5 : ℝ × ℝ := (Lm, 0)
  let lower_end_center : ℝ × ℝ := (Lm + Lb * c, 0 + Lb * (-s))
  let v3 : ℝ × ℝ := (lower_end_center.1 - hwb * (-s), lower_end_center.2 - hwb * (-c))
  let v4 : ℝ × ℝ := (lower_end_center.1 + hwb * (-s), lower_end_center.2 + hwb * (-c))
  let v2 : ℝ × ℝ := (Lm, -hwm)
  let bs := g.boundaries
  let bs := add_boundary bs [v9, v1] BoundaryType.inlet "INLET"
  let bs := add_boundary bs [v9, v8] BoundaryType.wall "WALL-main-top"
  let bs := add_boundary bs [v8, v7] BoundaryType.wall "WALL-upper-outer"
  let bs := add_boundary bs [v7, v6] BoundaryType.outlet1 "OUTLET1"
  let bs := add_boundary bs [v6, v5] BoundaryType.wall "WALL-upper-inner"
  let bs := add_boundary bs [v5, v3] BoundaryType.wall "WALL-lower-inner"
  let bs := add_boundary bs [v3, v4] BoundaryType.outlet2 "OUTLET2"
  let bs := add_boundary bs [v4, v2] BoundaryType.wall "WALL-lower-outer"
  let bs := add_boundary bs [v2, v1] BoundaryType.wall "WALL-main-bottom"
  let outer_boundary := [v1, v9, v8, v7, v6, v5, v3, v4, v2]
  ({ g with boundaries := bs }, outer_boundary)

/-- Embeds `MicrochannelGeometry.export_for_comsol` as inherited by the
corrected Y-junction. -/
noncomputable def YJunctionCorrected.export_for_comsol (g : YJunctionCorrected) :
    List (List (ℝ × ℝ)) × List (BoundarySegment ℝ) :=
  let r := g.generate
  let sc := unit_scale ℝ g.units
  ([r.2.map (scale_point sc)],
   r.1.boundaries.map (fun b => { b with points := b.points.map (scale_point sc) }))

/-- Embeds the constructor state of `YJunctionMicrofluidic`
(`yjunction_microfluidic.py`). -/
structure YJunctionMicrofluidic where
  units : String
  W_mm : ℝ
  L_main : ℝ
  L_branch : ℝ
  branch_angle : ℝ
  half_W : ℝ
  W : ℝ
  angle_rad : ℝ
  boundaries : List (BoundarySegment ℝ)

/-- Embeds `YJunctionMicrofluidic.__init__` with its Python default
arguments (`L_main=6.0, L_branch=4.0, W=0.2, branch_angle=30.0,
units='μm'`). -/
noncomputable def YJunctionMicrofluidic.init (L_main : ℝ := 6) (L_branch : ℝ := 4)
    (W : ℝ := 0.2) (branch_angle : ℝ := 30) (units : String := "μm") :
    YJunctionMicrofluidic :=
  { units := units
    W_mm := W
    L_main := L_main
    L_branch := L_branch
    branch_angle := branch_angle
    half_W := W / 2
    W := W * 1000
    angle_rad := branch_angle * (Real.pi / 180)
    boundaries := [] }

/-- The shoelace sum `Σ (x_i * y_{i+1} - x_{i+1} * y_i)` over the cyclic
vertex sequence; positive iff the polygon is counter-clockwise.  (Property
definition from the spec's words, used to state the orientation claims.) -/
def shoelace [CommRing K] (l : List (K × K)) : K :=
  match l with
  | [] => 0
  | p :: ps =>
      (((p :: ps).zip (ps ++ [p])).map
        (fun pq => pq.1.1 * pq.2.2 - pq.2.1 * pq.1.2)).sum

/-- `p` lies on the closed segment from `a` to `b`.  (Property definition
used to state the polygon-simplicity claim.) -/
def point_on_segment [CommRing K] [LE K] (p a b : K × K) : Prop :=
  ∃ t : K, 0 ≤ t ∧ t ≤ 1 ∧
    p.1 = a.1 + t * (b.1 - a.1) ∧ p.2 = a.2 + t * (b.2 - a.2)

end MicroGeo

namespace MicroGeo

/-! ### Helper lemmas (shared) -/

lemma unscale_scale_point {K : Type} [Field K] (sc : K) (h : sc ≠ 0) (p : K × K) :
    unscale_point sc (scale_point sc p) = p := by
  cases p
  simp [scale_point, unscale_point]
  constructor <;> exact mul_div_cancel_right₀ _ h

lemma map_unscale_scale {K : Type} [Field K] (sc : K) (h : sc ≠ 0)
    (l : List (K × K)) :
    (l.map (scale_point sc)).map (unscale_point sc) = l := by
  induction l with
  | nil => rfl
  | cons p ps ih => simp [unscale_scale_point sc h, ih]

lemma seg_unscale_scale {K : Type} [Field K] (sc : K) (h : sc ≠ 0)
    (b : BoundarySegment K) :
    ({ { b with points := b.points.map (scale_point sc) } with
        points := (b.points.map (scale_point sc)).map (unscale_point sc) }
      : BoundarySegment K) = b := by
  cases b
  simp [map_unscale_scale sc h]

lemma segs_unscale_scale {K : Type} [Field K] (sc : K) (h : sc ≠ 0)
    (bs : List (BoundarySegment K)) :
    (bs.map (fun b => ({ b with points := b.points.map (scale_point sc) }
        : BoundarySegment K))).map
      (fun b => ({ b with points := b.points.map (unscale_point sc) }
        : BoundarySegment K)) = bs := by
  induction bs with
  | nil => rfl
  | cons b rest ih =>
      simp only [List.map_cons, List.cons.injEq]
      exact ⟨seg_unscale_scale sc h b, ih⟩

end MicroGeo

namespace MicroGeo

/-! ### Claim theorems -/

/-- C1: for the symmetric-width Y-junction generator and every `W_main > 0`,
the branch width is constructed as `W_main / 2`, the single OUTLET1 segment
and the single OUTLET2 segment each have Euclidean length exactly
`W_main / 2`, and the two outlet-port lengths sum to `W_main` (exactly, in
the real-number model), so inlet cross-sectional area equals the sum of the
two outlet cross-sectional areas. -/
theorem yjunction_area_conservation (Lm Lb Wm ang : ℝ) (u : String)
    (h : 0 < Wm) :
    (YJunctionCorrected.init Lm Lb Wm ang u).W_branch = Wm / 2
    ∧ ((get_boundaries_by_type
          (((YJunctionCorrected.init Lm Lb Wm ang u).generate).1.boundaries)
          BoundaryType.outlet1).map (fun b => calculate_length b.points))
        = [Wm / 2]
    ∧ ((get_boundaries_by_type
          (((YJunctionCorrected.init Lm Lb Wm ang u).generate).1.boundaries)
          BoundaryType.outlet2).map (fun b => calculate_length b.points))
        = [Wm / 2]
    ∧ (((get_boundaries_by_type
          (((YJunctionCorrected.init Lm Lb Wm ang u).generate).1.boundaries)
          BoundaryType.outlet1).map (fun b => calculate_length b.points)).sum
       + ((get_boundaries_by_type
          (((YJunctionCorrected.init Lm Lb Wm ang u).generate).1.boundaries)
          BoundaryType.outlet2).map (fun b => calculate_length b.points)).sum)
        = Wm := by
  have hsc := Real.sin_sq_add_cos_sq (ang * (Real.pi / 180))
  have h1 : ((get_boundaries_by_type
      (((YJunctionCorrected.init Lm Lb Wm ang u).generate).1.boundaries)
      BoundaryType.outlet1).map (fun b => calculate_length b.points))
      = [Wm / 2] := by
    simp [YJunctionCorrected.generate, YJunctionCorrected.init, add_boundary,
      get_boundaries_by_type, calculate_length]
    have harg : (Wm / 2 / 2 * Real.sin (ang * (Real.pi / 180)) +
          Wm / 2 / 2 * Real.sin (ang * (Real.pi / 180))) ^ 2 +
        (Lb * Real.sin (ang * (Real.pi / 180)) -
            Wm / 2 / 2 * Real.cos (ang * (Real.pi / 180)) -
            (Lb * Real.sin (ang * (Real.pi / 180)) +
              Wm / 2 / 2 * Real.cos (ang * (Real.pi / 180)))) ^ 2
        = (Wm / 2) ^ 2 := by linear_combination (Wm ^ 2 / 4) * hsc
    rw [harg, Real.sqrt_sq (by linarith)]
  have h2 : ((get_boundaries_by_type
      (((YJunctionCorrected.init Lm Lb Wm ang u).generate).1.boundaries)
      BoundaryType.outlet2).map (fun b => calculate_length b.points))
      = [Wm / 2] := by
    simp [YJunctionCorrected.generate, YJunctionCorrected.init, add_boundary,
      get_boundaries_by_type, calculate_length]
    have harg : (-(Wm / 2 / 2 * Real.sin (ang * (Real.pi / 180))) -
          Wm / 2 / 2 * Real.sin (ang * (Real.pi / 180))) ^ 2 +
        (-(Wm / 2 / 2 * Real.cos (ang * (Real.pi / 180))) -
          Wm / 2 / 2 * Real.cos (ang * (Real.pi / 180))) ^ 2
        = (Wm / 2) ^ 2 := by linear_combination (Wm ^ 2 / 4) * hsc
    rw [harg, Real.sqrt_sq (by linarith)]
  refine ⟨rfl, h1, h2, ?_⟩
  rw [h1, h2]
  simp

/-- Witness for C1 at the spec's concrete scenario 3
(`L_main=6, L_branch=2.7, W_main=0.4, θ=40°`). -/
theorem yjunction_area_conservation_witness :
    (0:ℝ) < 0.4
    ∧ (YJunctionCorrected.init (6:ℝ) 2.7 0.4 40 "mm").W_branch = 0.4 / 2 :=
  ⟨by norm_num, (yjunction_area_conservation 6 2.7 0.4 40 "mm" (by norm_num)).1⟩

/-- C2 (code evaluation): on the T-junction with the default parameters
(`L_main=10, L_branch=5, W=0.2`), calling `generate` twice returns the same
outer polygon but does NOT yield an identical boundary-segment list: the
first call leaves 9 segments, the second call appends 9 more (18 total,
with two INLET segments), and `validate_boundaries` then fails — the
concrete generators never reset `self.boundaries`. -/
theorem tjunction_generate_twice_duplicates_segments :
    ((TJunctionGeometry.init (K := ℚ) 10 5 0.2 none "mm").generate).1.generate.2
      = ((TJunctionGeometry.init (K := ℚ) 10 5 0.2 none "mm").generate).2
    ∧ ((TJunctionGeometry.init (K := ℚ) 10 5 0.2 none "mm").generate).1.boundaries.length = 9
    ∧ ((TJunctionGeometry.init (K := ℚ) 10 5 0.2 none "mm").generate).1.generate.1.boundaries.length = 18
    ∧ (validate_boundaries
        ((TJunctionGeometry.init (K := ℚ) 10 5 0.2 none "mm").generate).1.generate.1.boundaries).1
      = false
    ∧ ((TJunctionGeometry.init (K := ℚ) 10 5 0.2 none "mm").generate).1.generate.1.boundaries
      ≠ ((TJunctionGeometry.init (K := ℚ) 10 5 0.2 none "mm").generate).1.boundaries := by
  refine ⟨?_, ?_, ?_, ?_, ?_⟩
  · simp [TJunctionGeometry.generate]
  · simp [TJunctionGeometry.generate, TJunctionGeometry.init, add_boundary]
  · simp [TJunctionGeometry.generate, TJunctionGeometry.init, add_boundary]
  · simp [validate_boundaries, get_boundaries_by_type, TJunctionGeometry.generate,
      TJunctionGeometry.init, add_boundary]
  · intro h
    have h2 := congrArg List.length h
    simp [TJunctionGeometry.generate, TJunctionGeometry.init, add_boundary] at h2

end MicroGeo

namespace MicroGeo

/-- C3 (counterexample): at the spec's own concrete scenario 3
(`L_main=6, L_branch=2.7, W_main=0.4, θ=40°`, a valid parameter set), the
corrected Y-junction's outer polygon has NEGATIVE shoelace sum — the vertex
order 1→9→8→7→6→5→3→4→2 is clockwise, so orientation is not consistently
counter-clockwise across the shape generators. -/
theorem yjunction_polygon_clockwise_at_scenario3 :
    shoelace ((YJunctionCorrected.init (6:ℝ) 2.7 0.4 40 "mm").generate).2 < 0 := by
  have hc : (0:ℝ) ≤ Real.cos (40 * (Real.pi / 180)) := by
    apply Real.cos_nonneg_of_mem_Icc
    constructor
    · nlinarith [Real.pi_pos]
    · nlinarith [Real.pi_pos]
  have hform : shoelace ((YJunctionCorrected.init (6:ℝ) 2.7 0.4 40 "mm").generate).2
      = -(2 * 0.4 * 6) - 0.4 * 2.7 * Real.cos ((40:ℝ) * (Real.pi / 180))
        + 0.4 ^ 2 / 4 * Real.sin ((40:ℝ) * (Real.pi / 180))
        - 0.4 * 2.7 := by
    have hsc := Real.sin_sq_add_cos_sq ((40:ℝ) * (Real.pi / 180))
    simp only [shoelace, YJunctionCorrected.generate, YJunctionCorrected.init]
    simp only [List.zip, List.zipWith, List.map, List.sum_cons, List.sum_nil]
    linear_combination (-((0.4:ℝ) * 2.7)) * hsc
  rw [hform]
  have hs1 := Real.sin_le_one ((40:ℝ) * (Real.pi / 180))
  nlinarith

/-- C3 (amended): polygon orientation is not uniform across the generators.
The T-junction polygon is counter-clockwise (positive shoelace sum) for all
parameters with `0 < W`, `0 < L_branch` and resolved `junction_x ≤ L_main`,
while the corrected Y-junction polygon is CLOCKWISE (negative shoelace sum)
for all parameters with `0 < W_main`, `0 < L_branch`, `W_main ≤ 8·L_main`
and branch angle with non-negative cosine (which covers the documented 0°
to 90° range). -/
theorem polygon_orientation_t_ccw_y_cw :
    (∀ (Lm Lb W : ℚ) (jxo : Option ℚ) (u : String), 0 < W → 0 < Lb →
        jxo.getD (Lm / 2) ≤ Lm →
        0 < shoelace ((TJunctionGeometry.init Lm Lb W jxo u).generate).2)
    ∧ (∀ (Lm Lb Wm ang : ℝ) (u : String), 0 < Wm → 0 < Lb →
        Wm ≤ 8 * Lm → 0 ≤ Real.cos (ang * (Real.pi / 180)) →
        shoelace ((YJunctionCorrected.init Lm Lb Wm ang u).generate).2 < 0) := by
  constructor
  · intro Lm Lb W jxo u hW hLb hj
    simp [shoelace, TJunctionGeometry.generate, TJunctionGeometry.init]
    set jx := jxo.getD (Lm / 2) with hjx
    nlinarith [hW, hLb, hj]
  · intro Lm Lb Wm ang u hW hLb h8 hc
    have hform : shoelace ((YJunctionCorrected.init Lm Lb Wm ang u).generate).2
        = -(2 * Wm * Lm) - Wm * Lb * Real.cos (ang * (Real.pi / 180))
          + Wm ^ 2 / 4 * Real.sin (ang * (Real.pi / 180))
          - Wm * Lb := by
      have hsc := Real.sin_sq_add_cos_sq (ang * (Real.pi / 180))
      simp only [shoelace, YJunctionCorrected.generate, YJunctionCorrected.init]
      simp only [List.zip, List.zipWith, List.map, List.sum_cons, List.sum_nil]
      linear_combination (-(Wm * Lb)) * hsc
    rw [hform]
    have hs1 := Real.sin_le_one (ang * (Real.pi / 180))
    nlinarith [mul_pos hW hLb, mul_nonneg (mul_nonneg hW.le hLb.le) hc, sq_nonneg Wm]

/-- Witness for the amended C3: both orientation statements instantiated at
concrete inputs (T-junction defaults; Y-junction with a 0° branch angle). -/
theorem polygon_orientation_t_ccw_y_cw_witness :
    0 < shoelace ((TJunctionGeometry.init (K := ℚ) 10 5 0.2 none "mm").generate).2
    ∧ shoelace ((YJunctionCorrected.init (6:ℝ) 3 1 0 "mm").generate).2 < 0 :=
  ⟨polygon_orientation_t_ccw_y_cw.1 10 5 0.2 none "mm" (by norm_num) (by norm_num)
      (by norm_num),
   polygon_orientation_t_ccw_y_cw.2 6 3 1 0 "mm" (by norm_num) (by norm_num)
      (by norm_num) (by norm_num [Real.cos_zero])⟩

end MicroGeo

namespace MicroGeo

/-- C4 (code evaluation): at the default T-junction parameters
(`L_main=10, L_branch=5, W=0.2`, `junction_x=5`, well inside the documented
valid range), the outer polygon returned by `generate` is NOT simple: its
bottom edge `p1→p2` (from `(0,-0.1)` to `(10,-0.1)`) and the non-adjacent
edge `p9→p10` (from `(4.9,-0.1)` to `(0,-0.1)`) overlap along a whole
sub-segment — both contain the two distinct points `(1,-0.1)` and
`(2,-0.1)` — and the two edges are distinct. -/
theorem tjunction_polygon_edges_overlap :
    point_on_segment ((1 : ℚ), -(1/10))
      (((TJunctionGeometry.init (K := ℚ) 10 5 0.2 none "mm").generate).2.getD 0 (0, 0))
      (((TJunctionGeometry.init (K := ℚ) 10 5 0.2 none "mm").generate).2.getD 1 (0, 0))
    ∧ point_on_segment ((1 : ℚ), -(1/10))
      (((TJunctionGeometry.init (K := ℚ) 10 5 0.2 none "mm").generate).2.getD 8 (0, 0))
      (((TJunctionGeometry.init (K := ℚ) 10 5 0.2 none "mm").generate).2.getD 9 (0, 0))
    ∧ point_on_segment ((2 : ℚ), -(1/10))
      (((TJunctionGeometry.init (K := ℚ) 10 5 0.2 none "mm").generate).2.getD 0 (0, 0))
      (((TJunctionGeometry.init (K := ℚ) 10 5 0.2 none "mm").generate).2.getD 1 (0, 0))
    ∧ point_on_segment ((2 : ℚ), -(1/10))
      (((TJunctionGeometry.init (K := ℚ) 10 5 0.2 none "mm").generate).2.getD 8 (0, 0))
      (((TJunctionGeometry.init (K := ℚ) 10 5 0.2 none "mm").generate).2.getD 9 (0, 0))
    ∧ ((1 : ℚ), -(1/10 : ℚ)) ≠ ((2 : ℚ), -(1/10 : ℚ))
    ∧ (((TJunctionGeometry.init (K := ℚ) 10 5 0.2 none "mm").generate).2.getD 0 (0, 0),
       ((TJunctionGeometry.init (K := ℚ) 10 5 0.2 none "mm").generate).2.getD 1 (0, 0))
      ≠ (((TJunctionGeometry.init (K := ℚ) 10 5 0.2 none "mm").generate).2.getD 8 (0, 0),
         ((TJunctionGeometry.init (K := ℚ) 10 5 0.2 none "mm").generate).2.getD 9 (0, 0))
    ∧ (((TJunctionGeometry.init (K := ℚ) 10 5 0.2 none "mm").generate).2.getD 0 (0, 0),
       ((TJunctionGeometry.init (K := ℚ) 10 5 0.2 none "mm").generate).2.getD 1 (0, 0))
      ≠ (((TJunctionGeometry.init (K := ℚ) 10 5 0.2 none "mm").generate).2.getD 9 (0, 0),
         ((TJunctionGeometry.init (K := ℚ) 10 5 0.2 none "mm").generate).2.getD 8 (0, 0)) := by
  refine ⟨⟨1/10, by norm_num, by norm_num, ?_, ?_⟩,
          ⟨39/49, by norm_num, by norm_num, ?_, ?_⟩,
          ⟨1/5, by norm_num, by norm_num, ?_, ?_⟩,
          ⟨29/49, by norm_num, by norm_num, ?_, ?_⟩,
          by norm_num, ?_, ?_⟩ <;>
    norm_num [TJunctionGeometry.generate, TJunctionGeometry.init]

/-- C5 (code evaluation): at the default T-junction parameters the outer
polygon does have ten vertices and `generate` emits exactly one INLET, one
OUTLET1 and one OUTLET2 segment, but it emits SIX Wall segments, not five —
and the sixth one, `WALL-branch-top` (index 6), spans exactly the same two
points as the OUTLET2 segment (index 2), double-tagging the branch-top edge
as both a no-slip wall and a pressure outlet. -/
theorem tjunction_six_wall_segments :
    ((TJunctionGeometry.init (K := ℚ) 10 5 0.2 none "mm").generate).2.length = 10
    ∧ (get_boundaries_by_type
        ((TJunctionGeometry.init (K := ℚ) 10 5 0.2 none "mm").generate).1.boundaries
        BoundaryType.inlet).length = 1
    ∧ (get_boundaries_by_type
        ((TJunctionGeometry.init (K := ℚ) 10 5 0.2 none "mm").generate).1.boundaries
        BoundaryType.outlet1).length = 1
    ∧ (get_boundaries_by_type
        ((TJunctionGeometry.init (K := ℚ) 10 5 0.2 none "mm").generate).1.boundaries
        BoundaryType.outlet2).length = 1
    ∧ (get_boundaries_by_type
        ((TJunctionGeometry.init (K := ℚ) 10 5 0.2 none "mm").generate).1.boundaries
        BoundaryType.wall).length = 6
    ∧ (((TJunctionGeometry.init (K := ℚ) 10 5 0.2 none "mm").generate).1.boundaries.getD 6
        ⟨[], BoundaryType.wall, ""⟩).points
      = (((TJunctionGeometry.init (K := ℚ) 10 5 0.2 none "mm").generate).1.boundaries.getD 2
        ⟨[], BoundaryType.wall, ""⟩).points
    ∧ (((TJunctionGeometry.init (K := ℚ) 10 5 0.2 none "mm").generate).1.boundaries.getD 6
        ⟨[], BoundaryType.wall, ""⟩).boundary_type = BoundaryType.wall
    ∧ (((TJunctionGeometry.init (K := ℚ) 10 5 0.2 none "mm").generate).1.boundaries.getD 2
        ⟨[], BoundaryType.wall, ""⟩).boundary_type = BoundaryType.outlet2 := by
  refine ⟨?_, ?_, ?_, ?_, ?_, ?_, ?_, ?_⟩ <;>
    simp [TJunctionGeometry.generate, TJunctionGeometry.init, add_boundary,
      get_boundaries_by_type]

end MicroGeo

namespace MicroGeo

/-- C6: for every parameter set of the symmetric-width Y-junction, the nine
polygon vertices equal the spec's formulas — inlet-bottom `(0,−W/2)`,
inlet-top `(0,W/2)`, main-end-top `(L_main,W/2)`, then the branch port
vertices `bifurcation + L_branch·(cos θ, ±sin θ) ± (W_branch/2)·normal`
with normals `(−sin θ, cos θ)` and `(−sin θ, −cos θ)`, the bifurcation
point `(L_main,0)`, and main-end-bottom `(L_main,−W/2)` — in the fixed
traversal order, and exactly nine boundary segments are emitted whose point
pairs walk exactly the consecutive traversal edges in the same order
(INLET, walls and the two outlets at their traversal positions). -/
theorem yjunction_vertex_and_segment_order (Lm Lb Wm ang : ℝ) (u : String) :
    ((YJunctionCorrected.init Lm Lb Wm ang u).generate).2 =
      [ (0, -(Wm/2)), (0, Wm/2), (Lm, Wm/2),
        (Lm + Lb * Real.cos (ang * (Real.pi/180)) - (Wm/2)/2 * Real.sin (ang * (Real.pi/180)),
         Lb * Real.sin (ang * (Real.pi/180)) + (Wm/2)/2 * Real.cos (ang * (Real.pi/180))),
        (Lm + Lb * Real.cos (ang * (Real.pi/180)) + (Wm/2)/2 * Real.sin (ang * (Real.pi/180)),
         Lb * Real.sin (ang * (Real.pi/180)) - (Wm/2)/2 * Real.cos (ang * (Real.pi/180))),
        (Lm, 0),
        (Lm + Lb * Real.cos (ang * (Real.pi/180)) + (Wm/2)/2 * Real.sin (ang * (Real.pi/180)),
         -(Lb * Real.sin (ang * (Real.pi/180))) + (Wm/2)/2 * Real.cos (ang * (Real.pi/180))),
        (Lm + Lb * Real.cos (ang * (Real.pi/180)) - (Wm/2)/2 * Real.sin (ang * (Real.pi/180)),
         -(Lb * Real.sin (ang * (Real.pi/180))) - (Wm/2)/2 * Real.cos (ang * (Real.pi/180))),
        (Lm, -(Wm/2)) ]
    ∧ (((YJunctionCorrected.init Lm Lb Wm ang u).generate).1.boundaries).map
        (fun b => (b.points, b.boundary_type)) =
      [ ([((YJunctionCorrected.init Lm Lb Wm ang u).generate).2.getD 1 (0,0),
          ((YJunctionCorrected.init Lm Lb Wm ang u).generate).2.getD 0 (0,0)], BoundaryType.inlet),
        ([((YJunctionCorrected.init Lm Lb Wm ang u).generate).2.getD 1 (0,0),
          ((YJunctionCorrected.init Lm Lb Wm ang u).generate).2.getD 2 (0,0)], BoundaryType.wall),
        ([((YJunctionCorrected.init Lm Lb Wm ang u).generate).2.getD 2 (0,0),
          ((YJunctionCorrected.init Lm Lb Wm ang u).generate).2.getD 3 (0,0)], BoundaryType.wall),
        ([((YJunctionCorrected.init Lm Lb Wm ang u).generate).2.getD 3 (0,0),
          ((YJunctionCorrected.init Lm Lb Wm ang u).generate).2.getD 4 (0,0)], BoundaryType.outlet1),
        ([((YJunctionCorrected.init Lm Lb Wm ang u).generate).2.getD 4 (0,0),
          ((YJunctionCorrected.init Lm Lb Wm ang u).generate).2.getD 5 (0,0)], BoundaryType.wall),
        ([((YJunctionCorrected.init Lm Lb Wm ang u).generate).2.getD 5 (0,0),
          ((YJunctionCorrected.init Lm Lb Wm ang u).generate).2.getD 6 (0,0)], BoundaryType.wall),
        ([((YJunctionCorrected.init Lm Lb Wm ang u).generate).2.getD 6 (0,0),
          ((YJunctionCorrected.init Lm Lb Wm ang u).generate).2.getD 7 (0,0)], BoundaryType.outlet2),
        ([((YJunctionCorrected.init Lm Lb Wm ang u).generate).2.getD 7 (0,0),
          ((YJunctionCorrected.init Lm Lb Wm ang u).generate).2.getD 8 (0,0)], BoundaryType.wall),
        ([((YJunctionCorrected.init Lm Lb Wm ang u).generate).2.getD 8 (0,0),
          ((YJunctionCorrected.init Lm Lb Wm ang u).generate).2.getD 0 (0,0)], BoundaryType.wall) ] := by
  constructor
  · simp [YJunctionCorrected.generate, YJunctionCorrected.init, Prod.ext_iff]
    constructor <;> ring
  · simp [YJunctionCorrected.generate, YJunctionCorrected.init, add_boundary]

/-- C7: for every parameter set, a single `generate` call on a fresh
T-junction or corrected Y-junction instance yields a boundary list on which
`validate_boundaries` returns `(true, [])` — exactly one inlet, at least
one outlet and at least one wall are present. -/
theorem generate_then_validate_ok (Lm Lb W Wm ang : ℝ) (jx : Option ℝ)
    (u v : String) :
    validate_boundaries ((TJunctionGeometry.init Lm Lb W jx u).generate).1.boundaries
      = (true, [])
    ∧ validate_boundaries ((YJunctionCorrected.init Lm Lb Wm ang v).generate).1.boundaries
      = (true, []) := by
  constructor
  · simp [validate_boundaries, get_boundaries_by_type, TJunctionGeometry.generate,
      TJunctionGeometry.init, add_boundary]
  · simp [validate_boundaries, get_boundaries_by_type, YJunctionCorrected.generate,
      YJunctionCorrected.init, add_boundary]

/-- C8: for every boundary-segment list, `validate_boundaries` returns a
pair whose boolean is `true` exactly when the list has exactly one Inlet
segment, at least one Outlet1-or-Outlet2 segment and at least one Wall
segment, and whose error list carries exactly one entry per violated
invariant (validation is a total function: failures are returned in the
list, never raised). -/
theorem validate_boundaries_characterization (bs : List (BoundarySegment ℝ)) :
    ((validate_boundaries bs).1 = true ↔
      ((get_boundaries_by_type bs BoundaryType.inlet).length = 1 ∧
       1 ≤ (get_boundaries_by_type bs BoundaryType.outlet1).length +
           (get_boundaries_by_type bs BoundaryType.outlet2).length ∧
       1 ≤ (get_boundaries_by_type bs BoundaryType.wall).length))
    ∧ (validate_boundaries bs).2.length =
        (if (get_boundaries_by_type bs BoundaryType.inlet).length ≠ 1 then 1 else 0) +
        (if (get_boundaries_by_type bs BoundaryType.outlet1).length +
            (get_boundaries_by_type bs BoundaryType.outlet2).length < 1 then 1 else 0) +
        (if (get_boundaries_by_type bs BoundaryType.wall).length = 0 then 1 else 0) := by
  have hlen : (get_boundaries_by_type bs BoundaryType.outlet1 ++
      get_boundaries_by_type bs BoundaryType.outlet2).length
      = (get_boundaries_by_type bs BoundaryType.outlet1).length +
        (get_boundaries_by_type bs BoundaryType.outlet2).length := List.length_append _ _
  constructor
  · unfold validate_boundaries
    dsimp only
    rw [hlen]
    split_ifs <;> simp <;> first | omega | simp_all
  · unfold validate_boundaries
    dsimp only
    rw [hlen]
    split_ifs <;> simp

end MicroGeo

namespace MicroGeo

/-- C9: `export_for_comsol` multiplies every polygon and boundary coordinate
by exactly the declared unit's meter-scale factor — `0.001` for `'mm'`
(`1.0` for `'m'`) — and dividing each exported coordinate by that factor
reproduces the pre-export declared-unit coordinates (exactly, in this
model), for both the T-junction and the corrected Y-junction. -/
theorem export_for_comsol_unit_scaling :
    (unit_scale ℝ "mm" = 0.001 ∧ unit_scale ℝ "m" = 1)
    ∧ (∀ (Lm Lb W : ℝ) (jx : Option ℝ),
        ((TJunctionGeometry.init Lm Lb W jx "mm").export_for_comsol).1
          = [(((TJunctionGeometry.init Lm Lb W jx "mm").generate).2).map
              (scale_point (0.001 : ℝ))]
        ∧ ((TJunctionGeometry.init Lm Lb W jx "mm").export_for_comsol).2
          = (((TJunctionGeometry.init Lm Lb W jx "mm").generate).1.boundaries).map
              (fun b => { b with points := b.points.map (scale_point (0.001 : ℝ)) })
        ∧ (((TJunctionGeometry.init Lm Lb W jx "mm").export_for_comsol).1).map
              (List.map (unscale_point (0.001 : ℝ)))
          = [((TJunctionGeometry.init Lm Lb W jx "mm").generate).2]
        ∧ (((TJunctionGeometry.init Lm Lb W jx "mm").export_for_comsol).2).map
              (fun b => { b with points := b.points.map (unscale_point (0.001 : ℝ)) })
          = ((TJunctionGeometry.init Lm Lb W jx "mm").generate).1.boundaries)
    ∧ (∀ (Lm Lb Wm ang : ℝ),
        ((YJunctionCorrected.init Lm Lb Wm ang "mm").export_for_comsol).1
          = [(((YJunctionCorrected.init Lm Lb Wm ang "mm").generate).2).map
              (scale_point (0.001 : ℝ))]
        ∧ ((YJunctionCorrected.init Lm Lb Wm ang "mm").export_for_comsol).2
          = (((YJunctionCorrected.init Lm Lb Wm ang "mm").generate).1.boundaries).map
              (fun b => { b with points := b.points.map (scale_point (0.001 : ℝ)) })
        ∧ (((YJunctionCorrected.init Lm Lb Wm ang "mm").export_for_comsol).1).map
              (List.map (unscale_point (0.001 : ℝ)))
          = [((YJunctionCorrected.init Lm Lb Wm ang "mm").generate).2]
        ∧ (((YJunctionCorrected.init Lm Lb Wm ang "mm").export_for_comsol).2).map
              (fun b => { b with points := b.points.map (unscale_point (0.001 : ℝ)) })
          = ((YJunctionCorrected.init Lm Lb Wm ang "mm").generate).1.boundaries) := by
  have hmm : unit_scale ℝ "mm" = 0.001 := by norm_num [unit_scale]
  have hnz : (0.001 : ℝ) ≠ 0 := by norm_num
  refine ⟨⟨hmm, by simp [unit_scale]; norm_num⟩, ?_, ?_⟩
  · intro Lm Lb W jx
    have husc : unit_scale ℝ (TJunctionGeometry.init Lm Lb W jx "mm").units
        = 0.001 := hmm
    refine ⟨?_, ?_, ?_, ?_⟩
    · simp [TJunctionGeometry.export_for_comsol, husc]
    · simp [TJunctionGeometry.export_for_comsol, husc]
    · simp only [TJunctionGeometry.export_for_comsol, husc, List.map_cons,
        List.map_nil, List.cons.injEq, and_true]
      exact map_unscale_scale _ hnz _
    · simp only [TJunctionGeometry.export_for_comsol, husc]
      exact segs_unscale_scale _ hnz _
  · intro Lm Lb Wm ang
    have husc : unit_scale ℝ (YJunctionCorrected.init Lm Lb Wm ang "mm").units
        = 0.001 := hmm
    refine ⟨?_, ?_, ?_, ?_⟩
    · simp [YJunctionCorrected.export_for_comsol, husc]
    · simp [YJunctionCorrected.export_for_comsol, husc]
    · simp only [YJunctionCorrected.export_for_comsol, husc, List.map_cons,
        List.map_nil, List.cons.injEq, and_true]
      exact map_unscale_scale _ hnz _
    · simp only [YJunctionCorrected.export_for_comsol, husc]
      exact segs_unscale_scale _ hnz _

/-- C10: the geometry constructor assigns meter-scale factor `0.001` only to
the exact unit string `'mm'`; every other unit string — including `'μm'`,
the default of `YJunctionMicrofluidic` — is assigned scale factor `1.0`, so
coordinate scaling with that factor leaves every coordinate numerically
unchanged (no conversion to meters). -/
theorem unit_scale_only_mm :
    (∀ u : String, u ≠ "mm" → unit_scale ℝ u = 1)
    ∧ unit_scale ℝ "mm" = 0.001
    ∧ (YJunctionMicrofluidic.init).units = "μm"
    ∧ (∀ p : ℝ × ℝ, scale_point (unit_scale ℝ "μm") p = p) := by
  refine ⟨?_, by norm_num [unit_scale], rfl, ?_⟩
  · intro u hu
    simp [unit_scale, hu]
    norm_num
  · intro p
    have h1 : unit_scale ℝ "μm" = 1 := by simp [unit_scale]; norm_num
    cases p
    simp [scale_point, h1]

/-- Witness for C10: the default unit `'μm'` differs from `'mm'` and indeed
gets scale factor `1.0`. -/
theorem unit_scale_only_mm_witness :
    unit_scale ℝ "μm" = 1 :=
  unit_scale_only_mm.1 "μm" (by decide)

end MicroGeo
